import Mathlib

/-
Verification of the sidero events-manager entry point (main, run) and of the
sfyra CAPI cluster helper (NewCluster, Cluster.Health, Cluster.health).

The embedding keeps the source's control flow: every external call a function
performs (Kubernetes reads, network listen, logger construction, the errgroup
wait, the streaming health-check RPC) is represented by an oracle field giving
that call's outcome, in program order, and the function body is transcribed
over those outcomes.
-/

/-- Error identity for the Go error values run inspects through errors.Is:
the grpc ErrServerStopped sentinel, the context.Canceled sentinel, and any
other error value. -/
inductive GoError where
  | serverStopped
  | contextCanceled
  | other (msg : String)
deriving DecidableEq

/-- Test performed by errors.Is(err, grpc.ErrServerStopped). -/
def errorsIsServerStopped : GoError → Bool
  | GoError.serverStopped => true
  | _ => false

/-- Test performed by errors.Is(err, context.Canceled). -/
def errorsIsCanceled : GoError → Bool
  | GoError.contextCanceled => true
  | _ => false

/-- Value produced by the CIDR parser, kept abstract as the text it accepted. -/
structure Cidr where
  raw : String
deriving DecidableEq

/-- Loop of run over the negative-address-filter flag values: an entry equal
to the literal "-" is skipped; any other entry is handed to the CIDR parser
netip.ParsePrefix, a parse failure makes run return that error at once, and
each parsed value is appended in order. The parser is standard-library code
outside this repository, so it is passed in as an oracle. -/
def buildNegativeFilter (parse : String → Except String Cidr) : List String → Except String (List Cidr)
  | [] => Except.ok []
  | s :: rest =>
    if s = "-" then buildNegativeFilter parse rest
    else
      match parse s with
      | Except.error e => Except.error e
      | Except.ok p => (buildNegativeFilter parse rest).map (fun ps => p :: ps)

/-- Outcomes of the external calls run performs, in program order. The wait
field is the value of eg.Wait(): the first error returned by the three
errgroup tasks (annotator loop, gRPC serve loop, shutdown watcher), or none
when all of them returned nil. -/
structure RunEnv where
  loggerInitErr : Option String
  parseCidr : String → Except String Cidr
  negativeAddressFilterFlag : List String
  listenErr : Option String
  metalClientErr : Option String
  waitResult : Option GoError

/-- Errors run can return, tagged by the step that produced them. -/
inductive RunError where
  | loggerInit (e : String)
  | cidrParse (e : String)
  | listen (e : String)
  | metalClient (e : String)
  | task (e : GoError)
deriving DecidableEq

/-- Observable startup milestones of run, in the order they happen. -/
inductive RunEvent where
  | listenerBound
  | annotatorLoopStarted
  | serveLoopStarted
  | watcherStarted
deriving DecidableEq

/-- Shallow embedding of run: the milestones reached paired with the returned
error. The final condition on the eg.Wait error is transcribed exactly as in
the source: the error is returned when it is non-nil, is not
grpc.ErrServerStopped, and IS context.Canceled; otherwise run returns nil. -/
def run (env : RunEnv) : List RunEvent × Option RunError :=
  match env.loggerInitErr with
  | some e => ([], some (RunError.loggerInit e))
  | none =>
    match buildNegativeFilter env.parseCidr env.negativeAddressFilterFlag with
    | Except.error e => ([], some (RunError.cidrParse e))
    | Except.ok _ =>
      match env.listenErr with
      | some e => ([], some (RunError.listen e))
      | none =>
        match env.metalClientErr with
        | some e => ([RunEvent.listenerBound], some (RunError.metalClient e))
        | none =>
          let events := [RunEvent.listenerBound, RunEvent.annotatorLoopStarted,
                         RunEvent.serveLoopStarted, RunEvent.watcherStarted]
          match env.waitResult with
          | some err =>
            if (!errorsIsServerStopped err) && errorsIsCanceled err then
              (events, some (RunError.task err))
            else
              (events, none)
          | none => (events, none)

/-- Embedding of the main function (the name main itself is reserved by
Lean): the process exit code paired with the error written to stderr (none
when run returned nil, in which case the process exits 0). -/
def mainFn (env : RunEnv) : Nat × Option RunError :=
  match (run env).2 with
  | some e => (1, some e)
  | none => (0, none)

/-- Control actions offered by the gRPC server: Stop closes all listeners and
connections at once, cancelling in-flight RPCs, while GracefulStop stops
accepting new work and blocks until in-flight RPCs finish draining. -/
inductive ServerCtl where
  | stop
  | gracefulStop
deriving DecidableEq

/-- Body of the third errgroup task of run, entered once the shared context is
cancelled: the server control actions it issues, paired with the error it
returns. The source calls s.Stop() and then returns nil. -/
def shutdownWatcher : List ServerCtl × Option GoError :=
  ([ServerCtl.stop], none)

/-- Address entry of a CAPI machine status: its type tag and the address. -/
structure MachineAddress where
  addrType : String
  address : String
deriving DecidableEq

/-- Fields of a CAPI machine consumed by the resolveMachinesToIPs closure. -/
structure Machine where
  deletionTimestampIsZero : Bool
  phase : String
  addresses : List MachineAddress
deriving DecidableEq

/-- Value of capiv1.MachinePhaseRunning. -/
def MachinePhaseRunning : String := "Running"

/-- Value of capiv1.MachinePhaseProvisioned. -/
def MachinePhaseProvisioned : String := "Provisioned"

/-- Value of capiv1.MachineInternalIP. -/
def MachineInternalIP : String := "InternalIP"

/-- Translation of the resolveMachinesToIPs closure of NewCluster: machines
being deleted or whose phase is neither Running nor Provisioned contribute
nothing; every other machine contributes its internal-IP addresses in order. -/
def resolveMachinesToIPs : List Machine → List String
  | [] => []
  | m :: rest =>
    if !m.deletionTimestampIsZero then resolveMachinesToIPs rest
    else if m.phase != MachinePhaseRunning && m.phase != MachinePhaseProvisioned then
      resolveMachinesToIPs rest
    else
      (m.addresses.filterMap fun a =>
        if a.addrType = MachineInternalIP then some a.address else none)
        ++ resolveMachinesToIPs rest

/-- CAPI MachineDeployment, of which NewCluster only reads the status
selector and the count of listed items. -/
structure MachineDeployment where
  statusSelector : String
deriving DecidableEq

/-- Cluster value built by NewCluster. The bound talos client and the
Kubernetes provider are external session handles and carry no state used by
the verified code paths. -/
structure Cluster where
  name : String
  controlPlaneNodes : List String
  workerNodes : List String
  bridgeIP : String
deriving DecidableEq

/-- Errors NewCluster can return: errors of external calls passed through
unchanged, and the four failures it constructs itself. -/
inductive NewClusterError where
  | external (e : String)
  | notEnoughMachines
  | noTalosconfigData
  | noControlPlaneNodes
  | unexpectedMachineDeployments (n : Nat)
deriving DecidableEq

/-- Outcomes of the external calls NewCluster performs, in program order:
the two reads of the cluster and control-plane objects, the selector parse,
the machine list for the control plane, the talosconfig secret read and its
key lookup, the client-config decode, the machine-deployment list, its
selector parse, the worker machine list, and the talos client construction. -/
structure CAPIEnv where
  getClusterErr : Option String
  getControlPlaneErr : Option String
  cpSelectorParseErr : Option String
  listCPMachines : Except String (List Machine)
  getSecretErr : Option String
  secretHasTalosconfig : Bool
  configFromBytesErr : Option String
  listMDs : Except String (List MachineDeployment)
  mdSelectorParseErr : Option String
  listWorkerMachines : Except String (List Machine)
  talosClientNewErr : Option String

/-- Shallow embedding of NewCluster over the outcomes of its external calls,
with every check transcribed in source order. -/
def NewCluster (clusterName bridgeIP : String) (env : CAPIEnv) : Except NewClusterError Cluster :=
  match env.getClusterErr with
  | some e => Except.error (NewClusterError.external e)
  | none =>
  match env.getControlPlaneErr with
  | some e => Except.error (NewClusterError.external e)
  | none =>
  match env.cpSelectorParseErr with
  | some e => Except.error (NewClusterError.external e)
  | none =>
  match env.listCPMachines with
  | Except.error e => Except.error (NewClusterError.external e)
  | Except.ok machines =>
  if machines.length < 1 then Except.error NewClusterError.notEnoughMachines
  else
  match env.getSecretErr with
  | some e => Except.error (NewClusterError.external e)
  | none =>
  if !env.secretHasTalosconfig then Except.error NewClusterError.noTalosconfigData
  else
  match env.configFromBytesErr with
  | some e => Except.error (NewClusterError.external e)
  | none =>
  let controlPlaneNodes := resolveMachinesToIPs machines
  if controlPlaneNodes.length < 1 then Except.error NewClusterError.noControlPlaneNodes
  else
  match env.listMDs with
  | Except.error e => Except.error (NewClusterError.external e)
  | Except.ok mds =>
  if mds.length ≠ 1 then Except.error (NewClusterError.unexpectedMachineDeployments mds.length)
  else
  match env.mdSelectorParseErr with
  | some e => Except.error (NewClusterError.external e)
  | none =>
  match env.listWorkerMachines with
  | Except.error e => Except.error (NewClusterError.external e)
  | Except.ok workerMachines =>
  let workerNodes := resolveMachinesToIPs workerMachines
  match env.talosClientNewErr with
  | some e => Except.error (NewClusterError.external e)
  | none =>
  Except.ok ⟨clusterName, controlPlaneNodes, workerNodes, bridgeIP⟩

/-- Errors a single health attempt can return, tagged by origin, plus the
hard timeout failure of the retry wrapper. -/
inductive HErr where
  | openFailed (e : String)
  | closeSendFailed (e : String)
  | healthcheckFailed (e : String)
  | recvFailed (e : String)
  | timeout
deriving DecidableEq

/-- Terminal receive outcome of the health-check stream: io.EOF, a status
with the gRPC Canceled code, or any other receive error. -/
inductive RecvFinal where
  | eof
  | canceledStatus
  | other (e : String)
deriving DecidableEq

/-- Progress message received on the health-check stream: the metadata error
field and the human-readable message text. -/
structure HealthMsg where
  metadataError : String
  message : String
deriving DecidableEq

/-- Outcomes of one streaming health-check invocation: the open error of
ClusterHealthCheck, the CloseSend error, the messages received in order, and
the terminal receive outcome that ends the stream. -/
structure HealthSession where
  openErr : Option String
  closeSendErr : Option String
  msgs : List HealthMsg
  finalRecv : RecvFinal
deriving DecidableEq

/-- Scope payload of the health-check RPC: the ClusterInfo value with the
control-plane and worker endpoint lists. -/
structure TalosClusterInfo where
  controlPlaneNodes : List String
  workerNodes : List String
deriving DecidableEq

/-- One streaming health-check RPC invocation: the node the call is targeted
at via WithNodes and the ClusterInfo scope it carries. -/
structure HealthCheckCall where
  targetNode : String
  info : TalosClusterInfo
deriving DecidableEq

/-- Receive loop of Cluster.health: a message with a non-empty metadata error
field ends the attempt with a healthcheck failure; when the stream ends, EOF
and the Canceled status code yield nil and any other receive error is
returned as-is. -/
def healthRecvLoop : List HealthMsg → RecvFinal → Option HErr
  | [], RecvFinal.eof => none
  | [], RecvFinal.canceledStatus => none
  | [], RecvFinal.other e => some (HErr.recvFailed e)
  | m :: rest, fin =>
    if m.metadataError ≠ "" then some (HErr.healthcheckFailed m.metadataError)
    else healthRecvLoop rest fin

/-- Error returned by one health attempt after its RPC call is opened: the
open error of ClusterHealthCheck if any, else the CloseSend error if any,
else the outcome of the receive loop. -/
def attemptResult (s : HealthSession) : Option HErr :=
  match s.openErr with
  | some e => some (HErr.openFailed e)
  | none =>
    match s.closeSendErr with
    | some e => some (HErr.closeSendFailed e)
    | none => healthRecvLoop s.msgs s.finalRecv

/-- Shallow embedding of the single health attempt Cluster.health: the value
none models the index panic of controlPlaneNodes[0] on an empty list;
otherwise the result carries the list of RPC calls the attempt opened and
the attempt's returned error. -/
def Cluster.health (cluster : Cluster) (s : HealthSession) : Option (List HealthCheckCall × Option HErr) :=
  match cluster.controlPlaneNodes.head? with
  | none => none
  | some node =>
    some ([⟨node, ⟨cluster.controlPlaneNodes, cluster.workerNodes⟩⟩], attemptResult s)

/-- Total time budget of the health retry wrapper in seconds: 5 minutes. -/
def retryBudgetSeconds : Nat := 5 * 60

/-- Pacing interval of the health retry wrapper in seconds: 10 seconds. -/
def retryIntervalSeconds : Nat := 10

/-- Number of paced attempts that fit in the total time budget. -/
def retryAttemptCount : Nat := retryBudgetSeconds / retryIntervalSeconds

/-- Modelled from the spec: the constant retryer of the external go-retry
library, as used by Cluster.Health. The attempt runs repeatedly with a fixed
pacing interval inside a fixed total budget; every attempt error is wrapped
by retry.ExpectedError and hence retryable; exhausting the budget yields the
hard timeout failure. Fuel counts the paced attempts left in the budget, k
indexes the attempts, and a none attempt outcome models a runtime panic
inside the attempt, which propagates instead of being retried. -/
def retryConstantExec (attempt : Nat → Option (List HealthCheckCall × Option HErr)) : Nat → Nat → Option (Option HErr)
  | _, 0 => some (some HErr.timeout)
  | k, fuel + 1 =>
    match attempt k with
    | none => none
    | some (_, none) => some none
    | some (_, some _) => retryConstantExec attempt (k + 1) fuel

/-- Shallow embedding of Cluster.Health: the constant retry wrapper with a
5 minute budget and 10 second pacing applied to Cluster.health, every
attempt error classified expected. The sessions oracle gives the stream
outcomes of the successive attempts. -/
def Cluster.Health (cluster : Cluster) (sessions : Nat → HealthSession) : Option (Option HErr) :=
  retryConstantExec (fun k => Cluster.health cluster (sessions k)) 0 retryAttemptCount

/-- Parser oracle accepting every string as a CIDR value. -/
def parseOkAll : String → Except String Cidr :=
  fun s => Except.ok ⟨s⟩

/-- Run environment whose task group ends with context.Canceled. -/
def envWaitCanceled : RunEnv :=
  ⟨none, parseOkAll, [], none, none, some GoError.contextCanceled⟩

/-- Run environment whose task group ends with a genuine task failure. -/
def envWaitCrashed : RunEnv :=
  ⟨none, parseOkAll, [], none, none, some (GoError.other "annotator: apply failed")⟩

/-- Parser oracle accepting exactly one CIDR value and rejecting the rest. -/
def badParse : String → Except String Cidr :=
  fun s => if s = "10.0.0.0/8" then Except.ok ⟨s⟩ else Except.error ("bad CIDR: " ++ s)

/-- Run environment whose filter flag holds a malformed entry. -/
def envBadFlag : RunEnv :=
  ⟨none, badParse, ["10.0.0.0/8", "nonsense"], none, none, none⟩

/-- Helper: a member of the flag list that is not the "-" sentinel and fails
to parse forces the filter construction to fail. -/
theorem buildNegativeFilter_error_of_mem (parse : String → Except String Cidr)
    {l : List String} {s e : String}
    (hmem : s ∈ l) (hs : s ≠ "-") (hp : parse s = Except.error e) :
    ∃ e', buildNegativeFilter parse l = Except.error e' := by
  induction l with
  | nil => cases hmem
  | cons a rest ih =>
    by_cases ha : a = "-"
    · subst ha
      have hmem' : s ∈ rest := by
        cases hmem with
        | head => exact absurd rfl hs
        | tail _ h => exact h
      obtain ⟨e', he'⟩ := ih hmem'
      exact ⟨e', by simp [buildNegativeFilter, he']⟩
    · cases hmem with
      | head => exact ⟨e, by simp [buildNegativeFilter, if_neg ha, hp]⟩
      | tail _ hmem' =>
        obtain ⟨e', he'⟩ := ih hmem'
        cases hpa : parse a with
        | error e0 => exact ⟨e0, by simp [buildNegativeFilter, if_neg ha, hpa]⟩
        | ok p => exact ⟨e', by simp [buildNegativeFilter, if_neg ha, hpa, he', Except.map]⟩

/-- C1: the claim says a final task-group error equal to the benign server
stopped or context canceled conditions makes run return nil while any other
non-nil first error is returned; the source has the canceled test without
negation, so run returns the canceled error and suppresses genuine task
errors. This theorem evaluates the transcribed code on both inputs. -/
theorem run_wait_error_filter_bug :
    (run envWaitCanceled).2 = some (RunError.task GoError.contextCanceled) ∧
    (mainFn envWaitCanceled).1 = 1 ∧
    (run envWaitCrashed).2 = none :=
  ⟨rfl, rfl, rfl⟩

/-- C5 counterexample: the shutdown watcher never issues the graceful stop;
the action it issues is the immediate Stop. -/
theorem shutdown_watcher_not_graceful :
    ServerCtl.gracefulStop ∉ shutdownWatcher.1 ∧ shutdownWatcher.2 = none := by
  decide

/-- C5 amended: when the cancellation signal fires, the shutdown watcher
issues the immediate stop of the gRPC server, which cancels in-flight RPCs
rather than draining them, and then returns nil. -/
theorem shutdown_watcher_immediate_stop :
    shutdownWatcher = ([ServerCtl.stop], none) :=
  rfl

/-- C6: with the logger constructed, a flag entry that is not the "-"
sentinel and fails CIDR parsing makes run return the parse error with no
startup milestone reached, so no listener is bound and no serve loop starts,
and makes the main function report the error and exit with status 1. -/
theorem run_malformed_cidr_fatal (env : RunEnv) (s e : String)
    (hlog : env.loggerInitErr = none)
    (hmem : s ∈ env.negativeAddressFilterFlag) (hs : s ≠ "-")
    (hp : env.parseCidr s = Except.error e) :
    (∃ e', run env = ([], some (RunError.cidrParse e'))) ∧
    (mainFn env).1 = 1 ∧ (∃ e', (mainFn env).2 = some (RunError.cidrParse e')) := by
  obtain ⟨e', he'⟩ := buildNegativeFilter_error_of_mem env.parseCidr hmem hs hp
  have hrun : run env = ([], some (RunError.cidrParse e')) := by
    simp [run, hlog, he']
  exact ⟨⟨e', hrun⟩, by simp [mainFn, hrun], ⟨e', by simp [mainFn, hrun]⟩⟩

/-- Witness for C6 at a concrete environment with a malformed second entry. -/
theorem run_malformed_cidr_fatal_witness :
    (envBadFlag.loggerInitErr = none ∧ "nonsense" ∈ envBadFlag.negativeAddressFilterFlag ∧
      "nonsense" ≠ "-" ∧ envBadFlag.parseCidr "nonsense" = Except.error "bad CIDR: nonsense") ∧
    ((∃ e', run envBadFlag = ([], some (RunError.cidrParse e'))) ∧
      (mainFn envBadFlag).1 = 1 ∧ (∃ e', (mainFn envBadFlag).2 = some (RunError.cidrParse e'))) :=
  ⟨⟨rfl, by decide, by decide, rfl⟩,
    run_malformed_cidr_fatal envBadFlag "nonsense" "bad CIDR: nonsense" rfl
      (by decide) (by decide) rfl⟩

/-- C7: the filter construction loop skips exactly the "-" sentinel entries,
never handing them to the parser, and parses all remaining entries in order,
appending the results; equivalently it is the monadic map of the parser over
the list with the sentinels filtered out, and inserting a sentinel anywhere
leaves the outcome unchanged. -/
theorem negative_filter_build_spec (parse : String → Except String Cidr) (l : List String) :
    buildNegativeFilter parse l = (l.filter (fun s => s != "-")).mapM parse ∧
    ∀ l1 l2 : List String,
      buildNegativeFilter parse (l1 ++ "-" :: l2) = buildNegativeFilter parse (l1 ++ l2) := by
  constructor
  · induction l with
    | nil => rfl
    | cons s rest ih =>
      by_cases hs : s = "-"
      · subst hs
        simpa [buildNegativeFilter] using ih
      · have hfil : (s :: rest).filter (fun s => s != "-") =
            s :: rest.filter (fun s => s != "-") := by
          simp [List.filter_cons, hs]
        rw [hfil, List.mapM_cons]
        simp only [buildNegativeFilter, if_neg hs]
        cases hp : parse s with
        | error e0 => simp [hp, Bind.bind, Except.bind]
        | ok p =>
          rw [ih]
          cases hrest : (rest.filter (fun s => s != "-")).mapM parse with
          | error e0 => simp [hp, hrest, Bind.bind, Except.bind, Except.map]
          | ok ps => simp [hp, hrest, Bind.bind, Except.bind, Except.map, Pure.pure, Except.pure]
  · intro l1 l2
    induction l1 with
    | nil => simp [buildNegativeFilter]
    | cons a l1 ih =>
      by_cases ha : a = "-"
      · simp [buildNegativeFilter, ha, ih]
      · simp only [List.cons_append, buildNegativeFilter, if_neg ha]
        cases parse a <;> simp [ih]

/-- Control-plane machine sample: running, not deleted, one internal IP. -/
def cpMachineSample : Machine :=
  ⟨true, "Running", [⟨"InternalIP", "10.5.0.2"⟩]⟩

/-- Environment on which every NewCluster step succeeds, with one running
control-plane machine, one machine deployment, and no worker machines. -/
def envAllOk : CAPIEnv :=
  ⟨none, none, none, Except.ok [cpMachineSample], none, true, none,
    Except.ok [⟨"md-selector"⟩], none, Except.ok [], none⟩

/-- Environment identical to envAllOk except that its control-plane machine
is being deleted, so no control-plane endpoint resolves. -/
def envNoCPResolved : CAPIEnv :=
  ⟨none, none, none, Except.ok [⟨false, "Running", [⟨"InternalIP", "10.5.0.2"⟩]⟩],
    none, true, none, Except.ok [⟨"md-selector"⟩], none, Except.ok [], none⟩

/-- Environment identical to envAllOk except that zero machine deployments
match the cluster-name label. -/
def envZeroMDs : CAPIEnv :=
  ⟨none, none, none, Except.ok [cpMachineSample], none, true, none,
    Except.ok [], none, Except.ok [], none⟩

/-- Helper: a successfully constructed Cluster has a non-empty control-plane
endpoint list, because NewCluster rejects an empty resolution. -/
theorem newCluster_ok_controlPlane (clusterName bridgeIP : String) (env : CAPIEnv) (c : Cluster)
    (h : NewCluster clusterName bridgeIP env = Except.ok c) :
    c.controlPlaneNodes ≠ [] := by
  simp only [NewCluster] at h
  repeat' split at h
  any_goals exact Except.noConfusion h
  injection h with h2
  subst h2
  intro hnil
  simp_all

/-- C4: when the prior steps succeed and the control-plane machine list
resolves to zero endpoints, NewCluster fails entirely with the no control
plane nodes error (or, when the machine list itself is empty, with the not
enough machines error raised just before); and every successfully returned
Cluster value has a non-empty control-plane endpoint list. -/
theorem newCluster_requires_control_plane_nodes :
    (∀ (clusterName bridgeIP : String) (env : CAPIEnv) (ms : List Machine),
      env.getClusterErr = none → env.getControlPlaneErr = none →
      env.cpSelectorParseErr = none → env.listCPMachines = Except.ok ms →
      env.getSecretErr = none → env.secretHasTalosconfig = true →
      env.configFromBytesErr = none → resolveMachinesToIPs ms = [] →
      NewCluster clusterName bridgeIP env =
        Except.error (if ms.isEmpty then NewClusterError.notEnoughMachines
          else NewClusterError.noControlPlaneNodes)) ∧
    (∀ (clusterName bridgeIP : String) (env : CAPIEnv) (c : Cluster),
      NewCluster clusterName bridgeIP env = Except.ok c → c.controlPlaneNodes ≠ []) := by
  constructor
  · intro clusterName bridgeIP env ms h1 h2 h3 h4 h5 h6 h7 hres
    cases ms with
    | nil => simp [NewCluster, h1, h2, h3, h4]
    | cons m rest => simp [NewCluster, h1, h2, h3, h4, h5, h6, h7, hres]
  · exact newCluster_ok_controlPlane

/-- Witness for C4 at the concrete environment whose single control-plane
machine is being deleted, so the resolution is empty but the list is not. -/
theorem newCluster_requires_control_plane_nodes_witness :
    (envNoCPResolved.getClusterErr = none ∧ envNoCPResolved.getControlPlaneErr = none ∧
      envNoCPResolved.cpSelectorParseErr = none ∧
      envNoCPResolved.listCPMachines =
        Except.ok [⟨false, "Running", [⟨"InternalIP", "10.5.0.2"⟩]⟩] ∧
      envNoCPResolved.getSecretErr = none ∧ envNoCPResolved.secretHasTalosconfig = true ∧
      envNoCPResolved.configFromBytesErr = none ∧
      resolveMachinesToIPs [⟨false, "Running", [⟨"InternalIP", "10.5.0.2"⟩]⟩] = []) ∧
    NewCluster "mgmt" "10.5.0.1" envNoCPResolved =
      Except.error (if ([⟨false, "Running", [⟨"InternalIP", "10.5.0.2"⟩]⟩] : List Machine).isEmpty
        then NewClusterError.notEnoughMachines else NewClusterError.noControlPlaneNodes) :=
  ⟨⟨rfl, rfl, rfl, rfl, rfl, rfl, rfl, by decide⟩,
    newCluster_requires_control_plane_nodes.1 "mgmt" "10.5.0.1" envNoCPResolved
      [⟨false, "Running", [⟨"InternalIP", "10.5.0.2"⟩]⟩]
      rfl rfl rfl rfl rfl rfl rfl (by decide)⟩

/-- C9: with the earlier steps succeeding and at least one control-plane
endpoint resolved, a machine-deployment list whose length is not exactly one
makes NewCluster fail with the unexpected-number error carrying that length;
and a successful construction with an empty worker endpoint list exists. -/
theorem newCluster_machine_deployment_count :
    (∀ (clusterName bridgeIP : String) (env : CAPIEnv) (ms : List Machine)
      (mds : List MachineDeployment),
      env.getClusterErr = none → env.getControlPlaneErr = none →
      env.cpSelectorParseErr = none → env.listCPMachines = Except.ok ms →
      env.getSecretErr = none → env.secretHasTalosconfig = true →
      env.configFromBytesErr = none → resolveMachinesToIPs ms ≠ [] →
      env.listMDs = Except.ok mds → mds.length ≠ 1 →
      NewCluster clusterName bridgeIP env =
        Except.error (NewClusterError.unexpectedMachineDeployments mds.length)) ∧
    (∃ (clusterName bridgeIP : String) (env : CAPIEnv) (c : Cluster),
      NewCluster clusterName bridgeIP env = Except.ok c ∧ c.workerNodes = []) := by
  constructor
  · intro clusterName bridgeIP env ms mds h1 h2 h3 h4 h5 h6 h7 hres h8 h9
    cases ms with
    | nil => exact absurd rfl hres
    | cons m rest =>
      have hlen : ¬ (resolveMachinesToIPs (m :: rest)).length < 1 := by
        cases hr : resolveMachinesToIPs (m :: rest) with
        | nil => exact absurd hr hres
        | cons a l => simp
      simp [NewCluster, h1, h2, h3, h4, h5, h6, h7, h8, h9, hlen]
  · exact ⟨"mgmt", "10.5.0.1", envAllOk, ⟨"mgmt", ["10.5.0.2"], [], "10.5.0.1"⟩, rfl, rfl⟩

/-- Witness for C9 at the concrete environment listing zero machine
deployments. -/
theorem newCluster_machine_deployment_count_witness :
    (envZeroMDs.getClusterErr = none ∧ envZeroMDs.getControlPlaneErr = none ∧
      envZeroMDs.cpSelectorParseErr = none ∧
      envZeroMDs.listCPMachines = Except.ok [cpMachineSample] ∧
      envZeroMDs.getSecretErr = none ∧ envZeroMDs.secretHasTalosconfig = true ∧
      envZeroMDs.configFromBytesErr = none ∧
      resolveMachinesToIPs [cpMachineSample] ≠ [] ∧
      envZeroMDs.listMDs = Except.ok [] ∧
      ([] : List MachineDeployment).length ≠ 1) ∧
    NewCluster "mgmt" "10.5.0.1" envZeroMDs =
      Except.error (NewClusterError.unexpectedMachineDeployments
        ([] : List MachineDeployment).length) :=
  ⟨⟨rfl, rfl, rfl, rfl, rfl, rfl, rfl, by decide, rfl, by decide⟩,
    newCluster_machine_deployment_count.1 "mgmt" "10.5.0.1" envZeroMDs [cpMachineSample] []
      rfl rfl rfl rfl rfl rfl rfl (by decide) rfl (by decide)⟩

/-- C10: for every Cluster value NewCluster returns, the index access
controlPlaneNodes[0] performed by the health attempt is in bounds, and the
attempt never takes the panic outcome. -/
theorem health_index_safe_for_constructed_cluster
    (clusterName bridgeIP : String) (env : CAPIEnv) (c : Cluster)
    (h : NewCluster clusterName bridgeIP env = Except.ok c) :
    0 < c.controlPlaneNodes.length ∧ ∀ s : HealthSession, Cluster.health c s ≠ none := by
  have hne := newCluster_ok_controlPlane clusterName bridgeIP env c h
  constructor
  · cases hcl : c.controlPlaneNodes with
    | nil => exact absurd hcl hne
    | cons a l => simp [hcl]
  · intro s
    cases hcl : c.controlPlaneNodes with
    | nil => exact absurd hcl hne
    | cons a l => simp [Cluster.health, hcl]

/-- Witness for C10 at the concrete all-success environment. -/
theorem health_index_safe_for_constructed_cluster_witness :
    NewCluster "mgmt" "10.5.0.1" envAllOk =
      Except.ok ⟨"mgmt", ["10.5.0.2"], [], "10.5.0.1"⟩ ∧
    (0 < (Cluster.mk "mgmt" ["10.5.0.2"] [] "10.5.0.1").controlPlaneNodes.length ∧
      ∀ s : HealthSession,
        Cluster.health ⟨"mgmt", ["10.5.0.2"], [], "10.5.0.1"⟩ s ≠ none) :=
  ⟨rfl, health_index_safe_for_constructed_cluster "mgmt" "10.5.0.1" envAllOk
    ⟨"mgmt", ["10.5.0.2"], [], "10.5.0.1"⟩ rfl⟩

/-- Helper: with a non-empty control-plane list whose head is known, the
health attempt opens its single call and returns the attempt result. -/
theorem cluster_health_eq (cluster : Cluster) (s : HealthSession) (a : String) (l : List String)
    (hcl : cluster.controlPlaneNodes = a :: l) :
    Cluster.health cluster s =
      some ([⟨a, ⟨cluster.controlPlaneNodes, cluster.workerNodes⟩⟩], attemptResult s) := by
  simp [Cluster.health, hcl]

/-- Helper: a receive loop whose messages all carry an empty error field
reduces to the loop on the empty message list, i.e. to the terminal receive
outcome alone. -/
theorem healthRecvLoop_clean (msgs : List HealthMsg) (fin : RecvFinal)
    (h : ∀ m ∈ msgs, m.metadataError = "") :
    healthRecvLoop msgs fin = healthRecvLoop [] fin := by
  induction msgs with
  | nil => rfl
  | cons m rest ih =>
    have hm : m.metadataError = "" := h m (List.mem_cons_self m rest)
    rw [healthRecvLoop, if_neg (by simp [hm])]
    exact ih (fun m' hm' => h m' (List.mem_cons_of_mem m hm'))

/-- Helper: the receive loop stops at the first message with a non-empty
error field and returns the healthcheck failure for it. -/
theorem healthRecvLoop_first_error (pre : List HealthMsg) (m : HealthMsg) (post : List HealthMsg)
    (fin : RecvFinal) (hpre : ∀ m' ∈ pre, m'.metadataError = "") (hm : m.metadataError ≠ "") :
    healthRecvLoop (pre ++ m :: post) fin = some (HErr.healthcheckFailed m.metadataError) := by
  induction pre with
  | nil => rw [List.nil_append, healthRecvLoop, if_pos hm]
  | cons a pre ih =>
    have ha : a.metadataError = "" := hpre a (List.mem_cons_self a pre)
    rw [List.cons_append, healthRecvLoop, if_neg (by simp [ha])]
    exact ih (fun m' hm' => hpre m' (List.mem_cons_of_mem a hm'))

/-- C3: with the call open and CloseSend succeeding, the single attempt
returns the receive-loop outcome: nil when the clean stream ends in EOF or a
Canceled status, the receive error as-is when the clean stream ends in any
other error, and the healthcheck failure of the first message carrying a
non-empty error field. -/
theorem health_attempt_recv_loop (cluster : Cluster) (s : HealthSession)
    (hcp : cluster.controlPlaneNodes ≠ [])
    (hopen : s.openErr = none) (hclose : s.closeSendErr = none) :
    ∃ calls, Cluster.health cluster s = some (calls, healthRecvLoop s.msgs s.finalRecv) ∧
      ((∀ m ∈ s.msgs, m.metadataError = "") →
        ((s.finalRecv = RecvFinal.eof ∨ s.finalRecv = RecvFinal.canceledStatus) →
          healthRecvLoop s.msgs s.finalRecv = none) ∧
        (∀ e, s.finalRecv = RecvFinal.other e →
          healthRecvLoop s.msgs s.finalRecv = some (HErr.recvFailed e))) ∧
      (∀ pre m post, s.msgs = pre ++ m :: post →
        (∀ m' ∈ pre, m'.metadataError = "") → m.metadataError ≠ "" →
        healthRecvLoop s.msgs s.finalRecv = some (HErr.healthcheckFailed m.metadataError)) := by
  cases hcl : cluster.controlPlaneNodes with
  | nil => exact absurd hcl hcp
  | cons a l =>
    refine ⟨[⟨a, ⟨cluster.controlPlaneNodes, cluster.workerNodes⟩⟩], ?_, ?_, ?_⟩
    · rw [cluster_health_eq cluster s a l hcl]
      simp [attemptResult, hopen, hclose]
    · intro hall
      constructor
      · intro hfin
        rw [healthRecvLoop_clean s.msgs s.finalRecv hall]
        cases hfin with
        | inl h => rw [h]; rfl
        | inr h => rw [h]; rfl
      · intro e hfin
        rw [healthRecvLoop_clean s.msgs s.finalRecv hall, hfin]; rfl
    · intro pre m post hsplit hpre hm
      rw [hsplit]
      exact healthRecvLoop_first_error pre m post s.finalRecv hpre hm

/-- Session sample: open and CloseSend succeed, one clean message, EOF. -/
def sessionCleanEof : HealthSession :=
  ⟨none, none, [⟨"", "waiting for etcd"⟩], RecvFinal.eof⟩

/-- Cluster sample with one control-plane node and one worker node. -/
def clusterSample : Cluster :=
  ⟨"mgmt", ["10.5.0.2"], ["10.5.0.3"], "10.5.0.1"⟩

/-- Witness for C3 at the concrete cluster and clean EOF session. -/
theorem health_attempt_recv_loop_witness :
    (clusterSample.controlPlaneNodes ≠ [] ∧ sessionCleanEof.openErr = none ∧
      sessionCleanEof.closeSendErr = none) ∧
    (∃ calls, Cluster.health clusterSample sessionCleanEof =
        some (calls, healthRecvLoop sessionCleanEof.msgs sessionCleanEof.finalRecv) ∧
      ((∀ m ∈ sessionCleanEof.msgs, m.metadataError = "") →
        ((sessionCleanEof.finalRecv = RecvFinal.eof ∨
            sessionCleanEof.finalRecv = RecvFinal.canceledStatus) →
          healthRecvLoop sessionCleanEof.msgs sessionCleanEof.finalRecv = none) ∧
        (∀ e, sessionCleanEof.finalRecv = RecvFinal.other e →
          healthRecvLoop sessionCleanEof.msgs sessionCleanEof.finalRecv =
            some (HErr.recvFailed e))) ∧
      (∀ pre m post, sessionCleanEof.msgs = pre ++ m :: post →
        (∀ m' ∈ pre, m'.metadataError = "") → m.metadataError ≠ "" →
        healthRecvLoop sessionCleanEof.msgs sessionCleanEof.finalRecv =
          some (HErr.healthcheckFailed m.metadataError))) :=
  ⟨⟨by decide, rfl, rfl⟩,
    health_attempt_recv_loop clusterSample sessionCleanEof (by decide) rfl rfl⟩

/-- C8: every single health attempt on a cluster with a resolvable first
control-plane endpoint opens exactly one RPC call, targeted at that first
endpoint and scoped to the full control-plane and worker endpoint lists. -/
theorem health_attempt_single_call (cluster : Cluster) (s : HealthSession)
    (hcp : cluster.controlPlaneNodes ≠ []) :
    ∃ node r, cluster.controlPlaneNodes.head? = some node ∧
      Cluster.health cluster s =
        some ([⟨node, ⟨cluster.controlPlaneNodes, cluster.workerNodes⟩⟩], r) := by
  cases hcl : cluster.controlPlaneNodes with
  | nil => exact absurd hcl hcp
  | cons a l =>
    refine ⟨a, attemptResult s, rfl, ?_⟩
    rw [cluster_health_eq cluster s a l hcl, hcl]

/-- Witness for C8 at the concrete cluster and clean EOF session. -/
theorem health_attempt_single_call_witness :
    clusterSample.controlPlaneNodes ≠ [] ∧
    (∃ node r, clusterSample.controlPlaneNodes.head? = some node ∧
      Cluster.health clusterSample sessionCleanEof =
        some ([⟨node, ⟨clusterSample.controlPlaneNodes, clusterSample.workerNodes⟩⟩], r)) :=
  ⟨by decide, health_attempt_single_call clusterSample sessionCleanEof (by decide)⟩

/-- Helper: when every attempt returns (no panic), the retry loop yields a
success exactly when some attempt inside its remaining budget succeeds. -/
theorem retryConstantExec_success_iff
    (attempt : Nat → Option (List HealthCheckCall × Option HErr))
    (res : Nat → Option HErr)
    (hat : ∀ j, ∃ calls, attempt j = some (calls, res j)) :
    ∀ fuel k, (retryConstantExec attempt k fuel = some none ↔
      ∃ j, j < fuel ∧ res (k + j) = none) := by
  intro fuel
  induction fuel with
  | zero =>
    intro k
    constructor
    · intro h
      exact absurd h (by simp [retryConstantExec])
    · rintro ⟨j, hj, _⟩
      exact absurd hj (Nat.not_lt_zero j)
  | succ fuel ih =>
    intro k
    obtain ⟨calls, hk⟩ := hat k
    cases hres : res k with
    | none =>
      rw [hres] at hk
      constructor
      · intro _
        exact ⟨0, Nat.succ_pos fuel, by rw [Nat.add_zero]; exact hres⟩
      · intro _
        simp only [retryConstantExec, hk]
    | some e =>
      rw [hres] at hk
      have hstep : retryConstantExec attempt k (fuel + 1) =
          retryConstantExec attempt (k + 1) fuel := by
        simp only [retryConstantExec, hk]
      rw [hstep, ih (k + 1)]
      constructor
      · rintro ⟨j, hj, hjr⟩
        refine ⟨j + 1, Nat.succ_lt_succ hj, ?_⟩
        have harith : k + (j + 1) = k + 1 + j := by omega
        rw [harith]
        exact hjr
      · rintro ⟨j, hj, hjr⟩
        cases j with
        | zero =>
          rw [Nat.add_zero] at hjr
          rw [hjr] at hres
          exact Option.noConfusion hres
        | succ j =>
          refine ⟨j, Nat.lt_of_succ_lt_succ hj, ?_⟩
          have harith : k + 1 + j = k + (j + 1) := by omega
          rw [harith]
          exact hjr

/-- Helper: when every attempt returns (no panic) and all attempts inside
the remaining budget fail, the retry loop yields the hard timeout failure. -/
theorem retryConstantExec_timeout
    (attempt : Nat → Option (List HealthCheckCall × Option HErr))
    (res : Nat → Option HErr)
    (hat : ∀ j, ∃ calls, attempt j = some (calls, res j)) :
    ∀ fuel k, (∀ j, j < fuel → res (k + j) ≠ none) →
      retryConstantExec attempt k fuel = some (some HErr.timeout) := by
  intro fuel
  induction fuel with
  | zero =>
    intro k _
    simp [retryConstantExec]
  | succ fuel ih =>
    intro k hall
    obtain ⟨calls, hk⟩ := hat k
    cases hres : res k with
    | none =>
      have h0 := hall 0 (Nat.succ_pos fuel)
      rw [Nat.add_zero] at h0
      exact absurd hres h0
    | some e =>
      rw [hres] at hk
      have hstep : retryConstantExec attempt k (fuel + 1) =
          retryConstantExec attempt (k + 1) fuel := by
        simp only [retryConstantExec, hk]
      rw [hstep]
      refine ih (k + 1) (fun j hj => ?_)
      have harith : k + 1 + j = k + (j + 1) := by omega
      rw [harith]
      exact hall (j + 1) (Nat.succ_lt_succ hj)

/-- C2: for a cluster with a resolvable first endpoint, every paced attempt
of Health is one run of the single-attempt health check whose error, if any,
is treated as retryable; Health succeeds exactly when some attempt within
the 5-minute budget paced at 10 seconds succeeds, and when every attempt in
the budget fails Health surfaces the hard timeout failure. -/
theorem cluster_health_retry_budget (cluster : Cluster) (sessions : Nat → HealthSession)
    (hcp : cluster.controlPlaneNodes ≠ []) :
    (∀ k, ∃ calls, Cluster.health cluster (sessions k) =
      some (calls, attemptResult (sessions k))) ∧
    (Cluster.Health cluster sessions = some none ↔
      ∃ k, k < retryAttemptCount ∧ attemptResult (sessions k) = none) ∧
    ((∀ k, k < retryAttemptCount → attemptResult (sessions k) ≠ none) →
      Cluster.Health cluster sessions = some (some HErr.timeout)) := by
  have hat : ∀ j, ∃ calls, (fun k => Cluster.health cluster (sessions k)) j =
      some (calls, (fun k => attemptResult (sessions k)) j) := by
    intro j
    cases hcl : cluster.controlPlaneNodes with
    | nil => exact absurd hcl hcp
    | cons a l =>
      exact ⟨[⟨a, ⟨cluster.controlPlaneNodes, cluster.workerNodes⟩⟩],
        cluster_health_eq cluster (sessions j) a l hcl⟩
  refine ⟨fun k => hat k, ?_, ?_⟩
  · have h := retryConstantExec_success_iff
      (fun k => Cluster.health cluster (sessions k))
      (fun k => attemptResult (sessions k)) hat retryAttemptCount 0
    simpa [Cluster.Health, Nat.zero_add] using h
  · intro hall
    have h := retryConstantExec_timeout
      (fun k => Cluster.health cluster (sessions k))
      (fun k => attemptResult (sessions k)) hat retryAttemptCount 0
      (fun j hj => by rw [Nat.zero_add]; exact hall j hj)
    simpa [Cluster.Health] using h

/-- Session sequence for the C2 witness: every attempt is the clean EOF
session, so the very first attempt succeeds. -/
def sessionsAllClean : Nat → HealthSession :=
  fun _ => sessionCleanEof

/-- Witness for C2 at the concrete cluster and all-clean session sequence. -/
theorem cluster_health_retry_budget_witness :
    clusterSample.controlPlaneNodes ≠ [] ∧
    ((∀ k, ∃ calls, Cluster.health clusterSample (sessionsAllClean k) =
        some (calls, attemptResult (sessionsAllClean k))) ∧
      (Cluster.Health clusterSample sessionsAllClean = some none ↔
        ∃ k, k < retryAttemptCount ∧ attemptResult (sessionsAllClean k) = none) ∧
      ((∀ k, k < retryAttemptCount → attemptResult (sessionsAllClean k) ≠ none) →
        Cluster.Health clusterSample sessionsAllClean = some (some HErr.timeout))) :=
  ⟨by decide, cluster_health_retry_budget clusterSample sessionsAllClean (by decide)⟩
